import Mathlib

/-!
Verification of the fire/smoke frame classifier
(`fire_smoke_detection.py`, function `detect_fire_smoke`).

The classifier receives one color frame (a rectangular grid of 3-channel
8-bit pixels) and two pixel-count thresholds.  It converts the frame to
hue-saturation-value space with `cv2.cvtColor(frame, cv2.COLOR_BGR2HSV)`
(so it reads the channels of each input pixel in blue-green-red order),
builds a fire mask as the union of three inclusive HSV bands and a smoke
mask from one band, counts the non-zero mask pixels, and decides:
fire alert if the fire count strictly exceeds the fire threshold, else
smoke alert if the smoke count strictly exceeds the smoke threshold,
else no alert.  In the alert branches it draws overlay text on the frame
with `cv2.putText` and returns the frame together with the alert message
and a severity (5 for fire, 3 for smoke, 0 otherwise).

Frames are embedded as `List (List Pixel)` with `Pixel := Nat × Nat × Nat`
(channel values 0..255 in the order the buffer stores them); masks as
`List (List Nat)` holding 255 or 0 per pixel, as `cv2.inRange` produces.
Thresholds are `Int`, as Python integers are unbounded and signed.
-/

/-- One 3-channel pixel: a triple of 8-bit channel values in the order the
buffer stores them.  `detect_fire_smoke` converts with `COLOR_BGR2HSV`, so
it reads an input pixel's channels as (blue, green, red); after conversion
a triple is (hue, saturation, value). -/
abbrev Pixel := Nat × Nat × Nat

/-- Modelled from the spec and the OpenCV documentation of
`cvtColor(..., COLOR_BGR2HSV)` on 8-bit data, which is external library
code (the repository only calls it): value = max channel, saturation =
255·(max−min)/max rounded (0 when max = 0), hue = the 0..360° sector angle
halved to fit 0..180, computed from whichever channel attains the maximum
(red, then green, then blue), with negative angles wrapped by +360°. -/
def bgr2hsvPixel (p : Pixel) : Pixel :=
  let b := p.1
  let g := p.2.1
  let r := p.2.2
  let v := max b (max g r)
  let mn := min b (min g r)
  let diff := v - mn
  let s := if v = 0 then 0 else (510 * diff + v) / (2 * v)
  let h :=
    if diff = 0 then 0
    else
      let hraw : Int :=
        if v = r then (g : Int) - (b : Int)
        else if v = g then (b : Int) - (r : Int) + 2 * (diff : Int)
        else (r : Int) - (g : Int) + 4 * (diff : Int)
      let h0 : Int := if hraw < 0 then hraw + 6 * (diff : Int) else hraw
      (h0.toNat * 60 + diff) / (2 * diff)
  (h, s, v)

/-- `cv2.cvtColor(frame, cv2.COLOR_BGR2HSV)`: the conversion applied to
every pixel of the grid. -/
def cvtColor_BGR2HSV (frame : List (List Pixel)) : List (List Pixel) :=
  frame.map (List.map bgr2hsvPixel)

/-- Per-pixel core of `cv2.inRange`: 255 when every channel lies inside
its inclusive [lower, upper] bound, 0 otherwise. -/
def inRangePixel (lo hi p : Pixel) : Nat :=
  if lo.1 ≤ p.1 ∧ p.1 ≤ hi.1 ∧
     lo.2.1 ≤ p.2.1 ∧ p.2.1 ≤ hi.2.1 ∧
     lo.2.2 ≤ p.2.2 ∧ p.2.2 ≤ hi.2.2 then 255 else 0

/-- `cv2.inRange(img, lo, hi)`: the per-pixel bound test over the grid. -/
def inRange (img : List (List Pixel)) (lo hi : Pixel) : List (List Nat) :=
  img.map (List.map (inRangePixel lo hi))

/-- `cv2.bitwise_or` on two congruent single-channel masks. -/
def bitwise_or (a b : List (List Nat)) : List (List Nat) :=
  List.zipWith (List.zipWith Nat.lor) a b

/-- `cv2.countNonZero`: the number of non-zero entries of a mask. -/
def countNonZero (m : List (List Nat)) : Nat :=
  (m.map (fun row => row.countP (fun x => x ≠ 0))).sum

/-- Total number of pixels of a grid (its area). -/
def totalPixels (frame : List (List Pixel)) : Nat :=
  (frame.map List.length).sum

-- The HSV bound triples of `detect_fire_smoke`, named as in the source.

def lower_red1 : Pixel := (0, 150, 150)
def upper_red1 : Pixel := (10, 255, 255)
def lower_red2 : Pixel := (160, 150, 150)
def upper_red2 : Pixel := (180, 255, 255)
def lower_yellow : Pixel := (20, 150, 150)
def upper_yellow : Pixel := (35, 255, 255)
def lower_smoke : Pixel := (0, 0, 180)
def upper_smoke : Pixel := (180, 50, 255)

/-- `red_mask = cv2.bitwise_or(red_mask1, red_mask2)` on an HSV grid. -/
def red_mask (hsv : List (List Pixel)) : List (List Nat) :=
  bitwise_or (inRange hsv lower_red1 upper_red1) (inRange hsv lower_red2 upper_red2)

/-- `yellow_mask = cv2.inRange(hsv, lower_yellow, upper_yellow)`. -/
def yellow_mask (hsv : List (List Pixel)) : List (List Nat) :=
  inRange hsv lower_yellow upper_yellow

/-- `fire_mask = cv2.bitwise_or(red_mask, yellow_mask)`. -/
def fire_mask (hsv : List (List Pixel)) : List (List Nat) :=
  bitwise_or (red_mask hsv) (yellow_mask hsv)

/-- `smoke_mask = cv2.inRange(hsv, lower_smoke, upper_smoke)`. -/
def smoke_mask (hsv : List (List Pixel)) : List (List Nat) :=
  inRange hsv lower_smoke upper_smoke

/-- `fire_pixels = cv2.countNonZero(fire_mask)` for a raw input frame. -/
def fire_pixels (frame : List (List Pixel)) : Nat :=
  countNonZero (fire_mask (cvtColor_BGR2HSV frame))

/-- `smoke_pixels = cv2.countNonZero(smoke_mask)` for a raw input frame. -/
def smoke_pixels (frame : List (List Pixel)) : Nat :=
  countNonZero (smoke_mask (cvtColor_BGR2HSV frame))

/-- `cv2.FONT_HERSHEY_SIMPLEX` (the OpenCV constant is 0). -/
def FONT_HERSHEY_SIMPLEX : Nat := 0

/-- One `cv2.putText` drawing call recorded with all its arguments. -/
structure Overlay where
  text : String
  org : Nat × Nat
  fontFace : Nat
  fontScale : ℚ
  color : Nat × Nat × Nat
  thickness : Nat
deriving DecidableEq

/-- The frame buffer together with the overlay drawing calls performed on
it.  `cv2.putText` rasterizes glyphs inside the OpenCV library, outside
this repository; its effect on the buffer is recorded as the list of
drawing calls, in order.  An untouched buffer has `overlays = []`. -/
structure AnnotatedFrame where
  pixels : List (List Pixel)
  overlays : List Overlay
deriving DecidableEq

/-- `cv2.putText(frame, text, org, fontFace, fontScale, color, thickness)`:
records the drawing call on the frame. -/
def putText (f : AnnotatedFrame) (text : String) (org : Nat × Nat)
    (fontFace : Nat) (fontScale : ℚ) (color : Nat × Nat × Nat)
    (thickness : Nat) : AnnotatedFrame :=
  ⟨f.pixels, f.overlays ++ [⟨text, org, fontFace, fontScale, color, thickness⟩]⟩

/-- `detect_fire_smoke(frame, fire_thresh=5000, smoke_thresh=5000)`:
converts the frame to HSV, counts fire- and smoke-mask pixels, and
returns the (possibly annotated) frame, the alert message and the
severity, with the fire branch checked first. -/
def detect_fire_smoke (frame : List (List Pixel))
    (fire_thresh smoke_thresh : Int) : AnnotatedFrame × Option String × Nat :=
  if (fire_pixels frame : Int) > fire_thresh then
    (putText ⟨frame, []⟩ "FIRE ALERT!" (50, 50) FONT_HERSHEY_SIMPLEX
        (12 / 10) (0, 0, 255) 3,
     some "🔥 Fire Detected!", 5)
  else if (smoke_pixels frame : Int) > smoke_thresh then
    (putText ⟨frame, []⟩ "SMOKE ALERT!" (50, 50) FONT_HERSHEY_SIMPLEX
        (12 / 10) (255, 255, 255) 3,
     some "💨 Smoke Detected!", 3)
  else (⟨frame, []⟩, none, 0)


/-- The value the fire mask assigns to one HSV pixel: the bitwise or of
the two red-band tests and the yellow-band test. -/
def fire_mask_pixel (p : Pixel) : Nat :=
  Nat.lor (Nat.lor (inRangePixel lower_red1 upper_red1 p)
      (inRangePixel lower_red2 upper_red2 p))
    (inRangePixel lower_yellow upper_yellow p)

/-- The value the smoke mask assigns to one HSV pixel. -/
def smoke_mask_pixel (p : Pixel) : Nat :=
  inRangePixel lower_smoke upper_smoke p

/-- A `rows × cols` frame in which every pixel equals `p`. -/
def uniformFrame (rows cols : Nat) (p : Pixel) : List (List Pixel) :=
  List.replicate rows (List.replicate cols p)

/-- Spec-side restatement of red band A of the fire mask: hue in [0, 10],
saturation in [150, 255], value in [150, 255]. -/
abbrev fireBandA (p : Pixel) : Prop :=
  0 ≤ p.1 ∧ p.1 ≤ 10 ∧ 150 ≤ p.2.1 ∧ p.2.1 ≤ 255 ∧ 150 ≤ p.2.2 ∧ p.2.2 ≤ 255

/-- Spec-side restatement of red band B of the fire mask: hue in [160, 180],
saturation in [150, 255], value in [150, 255]. -/
abbrev fireBandB (p : Pixel) : Prop :=
  160 ≤ p.1 ∧ p.1 ≤ 180 ∧ 150 ≤ p.2.1 ∧ p.2.1 ≤ 255 ∧ 150 ≤ p.2.2 ∧ p.2.2 ≤ 255

/-- Spec-side restatement of the yellow band of the fire mask: hue in
[20, 35], saturation in [150, 255], value in [150, 255]. -/
abbrev fireBandYellow (p : Pixel) : Prop :=
  20 ≤ p.1 ∧ p.1 ≤ 35 ∧ 150 ≤ p.2.1 ∧ p.2.1 ≤ 255 ∧ 150 ≤ p.2.2 ∧ p.2.2 ≤ 255

/-- Spec-side restatement of the smoke band: hue in [0, 180], saturation
in [0, 50], value in [180, 255]. -/
abbrev smokeBand (p : Pixel) : Prop :=
  0 ≤ p.1 ∧ p.1 ≤ 180 ∧ 0 ≤ p.2.1 ∧ p.2.1 ≤ 50 ∧ 180 ≤ p.2.2 ∧ p.2.2 ≤ 255

/-! ### Helper lemmas -/


lemma zipWith_map_same {α β γ δ : Type} (f : β → γ → δ) (g : α → β)
    (h : α → γ) (l : List α) :
    List.zipWith f (l.map g) (l.map h) = l.map (fun x => f (g x) (h x)) := by
  induction l with
  | nil => rfl
  | cons a t ih => simp [ih]

lemma bitwise_or_map_map (g h : Pixel → Nat) (m : List (List Pixel)) :
    bitwise_or (m.map (List.map g)) (m.map (List.map h)) =
      m.map (List.map fun p => Nat.lor (g p) (h p)) := by
  simp [bitwise_or, zipWith_map_same]

/-- The fire mask is the pixel-wise map of `fire_mask_pixel`. -/
lemma fire_mask_eq_map (hsv : List (List Pixel)) :
    fire_mask hsv = hsv.map (List.map fire_mask_pixel) := by
  rw [fire_mask, red_mask, yellow_mask, inRange, inRange, inRange,
    bitwise_or_map_map, bitwise_or_map_map]
  rfl

/-- The smoke mask is the pixel-wise map of `smoke_mask_pixel`. -/
lemma smoke_mask_eq_map (hsv : List (List Pixel)) :
    smoke_mask hsv = hsv.map (List.map smoke_mask_pixel) := rfl

lemma countP_replicate {α : Type} (q : α → Bool) (n : Nat) (a : α) :
    (List.replicate n a).countP q = if q a then n else 0 := by
  induction n with
  | zero => simp
  | succ k ih =>
      rw [List.replicate_succ, List.countP_cons]
      by_cases h : q a <;> simp [h, ih]

lemma countNonZero_replicate (r c x : Nat) :
    countNonZero (List.replicate r (List.replicate c x)) =
      if x = 0 then 0 else r * c := by
  unfold countNonZero
  rw [List.map_replicate, countP_replicate, List.sum_replicate]
  by_cases h : x = 0 <;> simp [h, mul_comm]

lemma fire_pixels_uniform (r c : Nat) (p : Pixel) :
    fire_pixels (uniformFrame r c p) =
      if fire_mask_pixel (bgr2hsvPixel p) = 0 then 0 else r * c := by
  rw [fire_pixels, cvtColor_BGR2HSV, uniformFrame, List.map_replicate,
    List.map_replicate, fire_mask_eq_map, List.map_replicate,
    List.map_replicate, countNonZero_replicate]

lemma smoke_pixels_uniform (r c : Nat) (p : Pixel) :
    smoke_pixels (uniformFrame r c p) =
      if smoke_mask_pixel (bgr2hsvPixel p) = 0 then 0 else r * c := by
  rw [smoke_pixels, cvtColor_BGR2HSV, uniformFrame, List.map_replicate,
    List.map_replicate, smoke_mask_eq_map, List.map_replicate,
    List.map_replicate, countNonZero_replicate]

lemma countNonZero_map_le (g : Pixel → Nat) (m : List (List Pixel)) :
    countNonZero (m.map (List.map g)) ≤ totalPixels m := by
  unfold countNonZero totalPixels
  induction m with
  | nil => simp
  | cons row t ih =>
      simp only [List.map_cons, List.sum_cons]
      exact Nat.add_le_add (by simpa using List.countP_le_length _) ih

lemma fire_pixels_le_totalPixels (frame : List (List Pixel)) :
    fire_pixels frame ≤ totalPixels frame := by
  rw [fire_pixels, cvtColor_BGR2HSV, fire_mask_eq_map]
  calc countNonZero ((frame.map (List.map bgr2hsvPixel)).map (List.map fire_mask_pixel))
      ≤ totalPixels (frame.map (List.map bgr2hsvPixel)) := countNonZero_map_le _ _
    _ = totalPixels frame := by
        simp [totalPixels, List.map_map, Function.comp_def, List.length_map]

lemma smoke_pixels_le_totalPixels (frame : List (List Pixel)) :
    smoke_pixels frame ≤ totalPixels frame := by
  rw [smoke_pixels, cvtColor_BGR2HSV, smoke_mask_eq_map]
  calc countNonZero ((frame.map (List.map bgr2hsvPixel)).map (List.map smoke_mask_pixel))
      ≤ totalPixels (frame.map (List.map bgr2hsvPixel)) := countNonZero_map_le _ _
    _ = totalPixels frame := by
        simp [totalPixels, List.map_map, Function.comp_def, List.length_map]

lemma lor_eq_zero_iff (a b : Nat) : Nat.lor a b = 0 ↔ a = 0 ∧ b = 0 := by
  constructor
  · intro h
    have h' : a ||| b = 0 := h
    have key : ∀ i, a.testBit i = false ∧ b.testBit i = false := by
      intro i
      have hbit := congrArg (fun x => Nat.testBit x i) h'
      simpa [Nat.testBit_lor] using hbit
    exact ⟨Nat.eq_of_testBit_eq (fun i => by simp [(key i).1]),
           Nat.eq_of_testBit_eq (fun i => by simp [(key i).2])⟩
  · rintro ⟨rfl, rfl⟩
    rfl

lemma inRangePixel_eq_zero (lo hi p : Pixel) :
    inRangePixel lo hi p = 0 ↔
      ¬(lo.1 ≤ p.1 ∧ p.1 ≤ hi.1 ∧ lo.2.1 ≤ p.2.1 ∧ p.2.1 ≤ hi.2.1 ∧
        lo.2.2 ≤ p.2.2 ∧ p.2.2 ≤ hi.2.2) := by
  unfold inRangePixel
  split_ifs with h <;> simp [h]

/-- Pixel-level characterization of the fire mask: non-zero exactly on the
union of the two red bands and the yellow band. -/
lemma fire_mask_pixel_ne_zero (p : Pixel) :
    fire_mask_pixel p ≠ 0 ↔ (fireBandA p ∨ fireBandB p ∨ fireBandYellow p) := by
  unfold fire_mask_pixel
  rw [Ne, lor_eq_zero_iff, lor_eq_zero_iff,
    inRangePixel_eq_zero, inRangePixel_eq_zero, inRangePixel_eq_zero]
  simp only [lower_red1, upper_red1, lower_red2, upper_red2,
    lower_yellow, upper_yellow, fireBandA, fireBandB, fireBandYellow]
  omega

/-- Pixel-level characterization of the smoke mask. -/
lemma smoke_mask_pixel_ne_zero (p : Pixel) :
    smoke_mask_pixel p ≠ 0 ↔ smokeBand p := by
  unfold smoke_mask_pixel
  rw [Ne, inRangePixel_eq_zero]
  simp only [lower_smoke, upper_smoke, smokeBand]
  omega

lemma map_getD_nil {α β : Type} (f : α → β) (m : List (List α)) (i : Nat) :
    (m.map (List.map f)).getD i [] = List.map f (m.getD i []) := by
  induction m generalizing i with
  | nil => simp only [List.map_nil, List.getD_nil]
  | cons row t ih =>
      cases i with
      | zero => simp only [List.map_cons, List.getD_cons_zero]
      | succ n => simp only [List.map_cons, List.getD_cons_succ]; exact ih n

lemma getD_map_pixel (f : Pixel → Nat) (hf : f (0, 0, 0) = 0)
    (row : List Pixel) (j : Nat) :
    (row.map f).getD j 0 = f (row.getD j (0, 0, 0)) := by
  induction row generalizing j with
  | nil => simp only [List.map_nil, List.getD_nil, hf]
  | cons a t ih =>
      cases j with
      | zero => simp only [List.map_cons, List.getD_cons_zero]
      | succ n => simp only [List.map_cons, List.getD_cons_succ]; exact ih n

/-! ### Claim theorems -/

/-- C5: every pixel of the HSV-converted frame is in the fire mask if and
only if it lies in at least one of exactly three bands, with all three
channels inside the band's inclusive range simultaneously: hue in [0,10]
with saturation in [150,255] and value in [150,255]; hue in [160,180]
with saturation in [150,255] and value in [150,255]; or hue in [20,35]
with saturation in [150,255] and value in [150,255].  Positions are read
with out-of-range defaults that lie in no band, so the statement covers
exactly the pixels of the grid. -/
theorem fire_mask_band_characterization (hsv : List (List Pixel)) (i j : Nat) :
    ((fire_mask hsv).getD i []).getD j 0 ≠ 0 ↔
      (fireBandA ((hsv.getD i []).getD j (0, 0, 0)) ∨
       fireBandB ((hsv.getD i []).getD j (0, 0, 0)) ∨
       fireBandYellow ((hsv.getD i []).getD j (0, 0, 0))) := by
  rw [fire_mask_eq_map, map_getD_nil, getD_map_pixel fire_mask_pixel (by decide)]
  exact fire_mask_pixel_ne_zero _

/-- C6: every pixel of the HSV-converted frame is in the smoke mask if and
only if its hue is in [0,180], its saturation is in [0,50], and its value
is in [180,255], all three bounds holding simultaneously. -/
theorem smoke_mask_characterization (hsv : List (List Pixel)) (i j : Nat) :
    ((smoke_mask hsv).getD i []).getD j 0 ≠ 0 ↔
      smokeBand ((hsv.getD i []).getD j (0, 0, 0)) := by
  rw [smoke_mask_eq_map, map_getD_nil, getD_map_pixel smoke_mask_pixel (by decide)]
  exact smoke_mask_pixel_ne_zero _

/-- C9: the fire mask and the smoke mask are disjoint: every HSV pixel is
outside at least one of them, because each fire band requires saturation
at least 150 while the smoke band requires saturation at most 50; so no
pixel ever contributes to both the fire count and the smoke count. -/
theorem fire_smoke_masks_disjoint (p : Pixel) :
    fire_mask_pixel p = 0 ∨ smoke_mask_pixel p = 0 := by
  by_cases hs : smoke_mask_pixel p = 0
  · exact Or.inr hs
  · left
    have hband := (smoke_mask_pixel_ne_zero p).mp hs
    by_contra hf
    have := (fire_mask_pixel_ne_zero p).mp hf
    simp only [fireBandA, fireBandB, fireBandYellow, smokeBand] at hband this
    omega

/-- C2: for every input frame and every pair of thresholds, the returned
pair (alert message, severity) satisfies: severity = 5 iff the message is
the fire message, severity = 3 iff it is the smoke message, and
severity = 0 iff it is `none`. -/
theorem severity_label_invariant (frame : List (List Pixel))
    (fire_thresh smoke_thresh : Int) :
    ((detect_fire_smoke frame fire_thresh smoke_thresh).2.2 = 5 ↔
      (detect_fire_smoke frame fire_thresh smoke_thresh).2.1 = some "🔥 Fire Detected!") ∧
    ((detect_fire_smoke frame fire_thresh smoke_thresh).2.2 = 3 ↔
      (detect_fire_smoke frame fire_thresh smoke_thresh).2.1 = some "💨 Smoke Detected!") ∧
    ((detect_fire_smoke frame fire_thresh smoke_thresh).2.2 = 0 ↔
      (detect_fire_smoke frame fire_thresh smoke_thresh).2.1 = none) := by
  unfold detect_fire_smoke
  split_ifs <;> refine ⟨?_, ?_, ?_⟩ <;> simp

/-- C3: whenever the fire pixel count strictly exceeds the fire threshold
and the smoke pixel count strictly exceeds the smoke threshold, the
classifier takes the fire branch — fire message, severity 5, the
"FIRE ALERT!" overlay at (50,50) in red — and never the smoke alert. -/
theorem fire_precedence (frame : List (List Pixel)) (fire_thresh smoke_thresh : Int)
    (hf : (fire_pixels frame : Int) > fire_thresh)
    (hs : (smoke_pixels frame : Int) > smoke_thresh) :
    detect_fire_smoke frame fire_thresh smoke_thresh =
      (putText ⟨frame, []⟩ "FIRE ALERT!" (50, 50) FONT_HERSHEY_SIMPLEX
          (12 / 10) (0, 0, 255) 3,
       some "🔥 Fire Detected!", 5) ∧
    (detect_fire_smoke frame fire_thresh smoke_thresh).2.1 ≠ some "💨 Smoke Detected!" := by
  unfold detect_fire_smoke
  rw [if_pos hf]
  exact ⟨rfl, by simp⟩

/-- C3 witness: a 1×2 frame with one fire-colored and one smoke-colored
pixel, thresholds 0 each: both counts exceed their thresholds and the
fire branch wins. -/
theorem fire_precedence_witness :
    detect_fire_smoke [[(0, 0, 255), (200, 200, 200)]] 0 0 =
      (putText ⟨[[(0, 0, 255), (200, 200, 200)]], []⟩ "FIRE ALERT!" (50, 50)
          FONT_HERSHEY_SIMPLEX (12 / 10) (0, 0, 255) 3,
       some "🔥 Fire Detected!", 5) ∧
    (detect_fire_smoke [[(0, 0, 255), (200, 200, 200)]] 0 0).2.1 ≠
      some "💨 Smoke Detected!" :=
  fire_precedence [[(0, 0, 255), (200, 200, 200)]] 0 0 (by decide) (by decide)

/-- C4: the threshold comparison is strict: a frame with exactly
`fire_thresh` fire pixels and at most `smoke_thresh` smoke pixels yields
no alert and severity 0. -/
theorem threshold_strict_boundary (frame : List (List Pixel))
    (fire_thresh smoke_thresh : Int)
    (hf : (fire_pixels frame : Int) = fire_thresh)
    (hs : (smoke_pixels frame : Int) ≤ smoke_thresh) :
    detect_fire_smoke frame fire_thresh smoke_thresh = (⟨frame, []⟩, none, 0) := by
  unfold detect_fire_smoke
  rw [if_neg (by omega), if_neg (by omega)]

/-- C4 witness: a single fire pixel with fire threshold exactly 1 and no
smoke pixels with threshold 0: no alert. -/
theorem threshold_strict_boundary_witness :
    detect_fire_smoke [[(0, 0, 255)]] 1 0 = (⟨[[(0, 0, 255)]], []⟩, none, 0) :=
  threshold_strict_boundary [[(0, 0, 255)]] 1 0 (by decide) (by decide)

/-- C7: when neither count strictly exceeds its threshold, the classifier
returns no alert, severity 0, draws no overlay, and the returned frame
buffer is exactly the input frame. -/
theorem no_alert_frame_unchanged (frame : List (List Pixel))
    (fire_thresh smoke_thresh : Int)
    (hf : (fire_pixels frame : Int) ≤ fire_thresh)
    (hs : (smoke_pixels frame : Int) ≤ smoke_thresh) :
    detect_fire_smoke frame fire_thresh smoke_thresh = (⟨frame, []⟩, none, 0) := by
  unfold detect_fire_smoke
  rw [if_neg (by omega), if_neg (by omega)]

/-- C7 witness: an all-black 1×1 frame with the default thresholds. -/
theorem no_alert_frame_unchanged_witness :
    detect_fire_smoke [[(0, 0, 0)]] 5000 5000 = (⟨[[(0, 0, 0)]], []⟩, none, 0) :=
  no_alert_frame_unchanged [[(0, 0, 0)]] 5000 5000 (by decide) (by decide)

/-- C10: no threshold validation is performed: with a negative fire
threshold the fire branch is always taken, for every frame — in
particular one with an empty fire mask — because the count, at least 0,
strictly exceeds any negative threshold. -/
theorem negative_threshold_fires (frame : List (List Pixel))
    (fire_thresh smoke_thresh : Int) (hneg : fire_thresh < 0) :
    (detect_fire_smoke frame fire_thresh smoke_thresh).2.1 = some "🔥 Fire Detected!" ∧
    (detect_fire_smoke frame fire_thresh smoke_thresh).2.2 = 5 := by
  unfold detect_fire_smoke
  rw [if_pos (by omega)]
  exact ⟨rfl, rfl⟩

/-- C10 witness: the empty frame has fire pixel count 0, yet with fire
threshold −1 the classifier reports fire with severity 5. -/
theorem negative_threshold_fires_witness :
    fire_pixels ([] : List (List Pixel)) = 0 ∧
    (detect_fire_smoke ([] : List (List Pixel)) (-1) 5000).2.1 = some "🔥 Fire Detected!" ∧
    (detect_fire_smoke ([] : List (List Pixel)) (-1) 5000).2.2 = 5 :=
  ⟨by decide, negative_threshold_fires ([] : List (List Pixel)) (-1) 5000 (by decide)⟩

/-- C8: a frame with zero pixels and non-negative thresholds produces a
result with no alert: both mask pixel counts are zero, the message is
`none` and the severity is 0 (no error branch exists to reach). -/
theorem zero_area_no_alert (frame : List (List Pixel))
    (fire_thresh smoke_thresh : Int)
    (hft : 0 ≤ fire_thresh) (hst : 0 ≤ smoke_thresh)
    (h0 : totalPixels frame = 0) :
    fire_pixels frame = 0 ∧ smoke_pixels frame = 0 ∧
    detect_fire_smoke frame fire_thresh smoke_thresh = (⟨frame, []⟩, none, 0) := by
  have hf : fire_pixels frame = 0 :=
    Nat.le_zero.mp (h0 ▸ fire_pixels_le_totalPixels frame)
  have hs : smoke_pixels frame = 0 :=
    Nat.le_zero.mp (h0 ▸ smoke_pixels_le_totalPixels frame)
  refine ⟨hf, hs, ?_⟩
  unfold detect_fire_smoke
  rw [if_neg (by omega), if_neg (by omega)]

/-- C8 witness: the empty frame with the default thresholds. -/
theorem zero_area_no_alert_witness :
    fire_pixels ([] : List (List Pixel)) = 0 ∧
    smoke_pixels ([] : List (List Pixel)) = 0 ∧
    detect_fire_smoke ([] : List (List Pixel)) 5000 5000 = (⟨[], []⟩, none, 0) :=
  zero_area_no_alert ([] : List (List Pixel)) 5000 5000
    (by decide) (by decide) (by decide)

/-- C1 counterexample: a 100×100 frame whose pixels all hold the channel
triple (255, 0, 0) — pure red under red-green-blue channel order, as the
claim stipulates — is read by the classifier's `COLOR_BGR2HSV` conversion
as pure blue (hue 120), so its fire pixel count is 0, not 10000, and with
the default thresholds it returns no alert and severity 0, not the fire
alert with severity 5. -/
theorem rgb_red_frame_no_fire_alert :
    fire_pixels (uniformFrame 100 100 (255, 0, 0)) = 0 ∧
    detect_fire_smoke (uniformFrame 100 100 (255, 0, 0)) 5000 5000 =
      (⟨uniformFrame 100 100 (255, 0, 0), []⟩, none, 0) := by
  have hf : fire_pixels (uniformFrame 100 100 (255, 0, 0)) = 0 := by
    rw [fire_pixels_uniform]; decide
  have hs : smoke_pixels (uniformFrame 100 100 (255, 0, 0)) = 0 := by
    rw [smoke_pixels_uniform]; decide
  refine ⟨hf, ?_⟩
  unfold detect_fire_smoke
  rw [if_neg (by rw [hf]; decide), if_neg (by rw [hs]; decide)]

/-- C1 amended: a 100×100 frame whose pixels all hold the channel triple
(0, 0, 255) — pure red in the blue-green-red channel order the classifier
actually reads — has fire pixel count 10000 > 5000 with the default
thresholds, so the classifier returns the fire alert with severity 5. -/
theorem bgr_red_frame_fire_alert :
    fire_pixels (uniformFrame 100 100 (0, 0, 255)) = 10000 ∧
    detect_fire_smoke (uniformFrame 100 100 (0, 0, 255)) 5000 5000 =
      (putText ⟨uniformFrame 100 100 (0, 0, 255), []⟩ "FIRE ALERT!" (50, 50)
          FONT_HERSHEY_SIMPLEX (12 / 10) (0, 0, 255) 3,
       some "🔥 Fire Detected!", 5) := by
  have hf : fire_pixels (uniformFrame 100 100 (0, 0, 255)) = 10000 := by
    rw [fire_pixels_uniform]; decide
  refine ⟨hf, ?_⟩
  unfold detect_fire_smoke
  rw [if_pos (by rw [hf]; decide)]
